import Mathlib

/-
Shallow embedding of the binexpect repository (wapiflapi/binexpect).

The embedded code lives in two places in the repository:
  * src/binexpect/mixins.py   (package version: BinMixin, PromptMixin)
  * src/binexpect.py          (legacy top-level module: binMixin, promptMixin)

Terminal attribute records (the seven-field list returned by
termios.tcgetattr) are modelled by the structure Termios.  The mutable
state a mixin instance carries (the monkeypatched crlf line terminator,
the oldmodes stack, the echo flag) together with an explicit log of the
tcsetattr calls performed is modelled by the structure Conn; every
operation is a pure state transformer on Conn.  Machine integers are
modelled by Nat: Python ints are unbounded and only the bitwise
operations or-with-ONLCR and and-with-not-ONLCR occur, the latter
rendered as x ^^^ (x &&& ONLCR), which agrees with the Python
expression x & ~ONLCR on non-negative ints: it clears exactly the
bits of the mask that are set in x.
-/

namespace Binexpect

/-- Value of termios.ONLCR on Linux (bit 2, octal 0o000004). -/
def ONLCR : Nat := 4

/-- Value of termios.TCSADRAIN on Linux, the default when argument. -/
def TCSADRAIN : Nat := 1

/-- Bytes of pexpect.spawn.crlf, the two-byte line terminator CR LF. -/
def CRLF : List Nat := [13, 10]

/-- Bytes of pexpect.spawn.crlf[-1], the single trailing byte of CRLF. -/
def LF : List Nat := [10]

/-- A termios attribute record: the seven-field list
[iflag, oflag, cflag, lflag, ispeed, ospeed, cc] indexed by TLIST. -/
structure Termios where
  iflag : Nat
  oflag : Nat
  cflag : Nat
  lflag : Nat
  ispeed : Nat
  ospeed : Nat
  cc : List Nat
deriving DecidableEq, Repr

/-- The observable state of a spawn object decorated by the mixins:
the terminal attribute record held by the tty of its fd, the
monkeypatched crlf line terminator, the oldmodes stack maintained by
changemode (a popped entry may be None, modelled by Option), the echo
flag, and a log of the tcsetattr calls performed, each recorded with
its when argument. -/
structure Conn where
  term : Termios
  crlf : List Nat
  oldmodes : List (Option Termios)
  echo : Bool
  writes : List (Nat × Termios)
deriving DecidableEq, Repr

namespace BinMixin

/-- BinMixin.setmode from src/binexpect/mixins.py (lines 56-70).

  if mode[TLIST.OFLAG] & termios.ONLCR:
      self.crlf = pexpect.spawn.crlf
  else:
      self.crlf = pexpect.spawn.crlf[-1]
      termios.tcsetattr(fd, when, mode)

Note the indentation of the source: the tcsetattr call sits inside the
else branch, so the attribute record is only written to the terminal
when the ONLCR bit of the new mode is clear. -/
def setmode (when : Nat) (mode : Termios) (c : Conn) : Conn :=
  if mode.oflag &&& ONLCR ≠ 0 then
    { c with crlf := CRLF }
  else
    { c with crlf := LF, term := mode,
             writes := c.writes ++ [(when, mode)] }

/-- BinMixin.changemode from src/binexpect/mixins.py (lines 72-99),
specialised to a with-body that always returns normally.  The body is
modelled by a function f mutating the yielded snapshot.  The manager
reads the current attributes (tcgetattr), pushes a deep copy on the
oldmodes stack, lets the body mutate the snapshot, and on normal scope
exit compares the mutated snapshot with the pushed copy: if unchanged
the top entry is overwritten with None, otherwise setmode applies the
snapshot. -/
def changemode (when : Nat) (f : Termios → Termios) (c : Conn) : Conn :=
  let mode := c.term
  let pushed : Conn := { c with oldmodes := some mode :: c.oldmodes }
  let m := f mode
  if m = mode then { pushed with oldmodes := none :: c.oldmodes }
  else setmode when m pushed

/-- BinMixin.changemode with a with-body that may raise.  The source
wraps a generator with contextlib.contextmanager and has no try/finally
around the yield: when the body raises, the exception is thrown into
the generator at the yield point and propagates, so the comparison and
the setmode call after the yield never run, while the entry pushed
before the yield stays on the stack.  The Bool in the result records
whether the exception escaped. -/
def changemodeExc (when : Nat) (f : Termios → Except Unit Termios) (c : Conn) :
    Conn × Bool :=
  let mode := c.term
  let pushed : Conn := { c with oldmodes := some mode :: c.oldmodes }
  match f mode with
  | Except.error _ => (pushed, true)
  | Except.ok m =>
    if m = mode then ({ pushed with oldmodes := none :: c.oldmodes }, false)
    else (setmode when m pushed, false)

/-- BinMixin.restoremode from src/binexpect/mixins.py (lines 101-109).
Pops the most recent entry; popping an empty stack raises IndexError,
modelled by none.  A None entry is discarded silently, otherwise the
popped record is applied with setmode. -/
def restoremode (when : Nat) (c : Conn) : Option Conn :=
  match c.oldmodes with
  | [] => none
  | mode :: rest =>
    let c1 : Conn := { c with oldmodes := rest }
    some (match mode with
      | none => c1
      | some m => setmode when m c1)

/-- BinMixin.setnlcr from src/binexpect/mixins.py (lines 111-117):
inside a changemode scope, set ONLCR in the output flags. -/
def setnlcr (c : Conn) : Conn :=
  changemode TCSADRAIN (fun m => { m with oflag := m.oflag ||| ONLCR }) c

/-- BinMixin.setnonlcr from src/binexpect/mixins.py (lines 119-125):
inside a changemode scope, clear ONLCR in the output flags (the Python
expression mode & ~ONLCR, rendered as xor with the masked bit). -/
def setnonlcr (c : Conn) : Conn :=
  changemode TCSADRAIN
    (fun m => { m with oflag := m.oflag ^^^ (m.oflag &&& ONLCR) }) c

/-- BinMixin.escape from src/binexpect/mixins.py (lines 127-151) on a
bytes argument: a bytearray of twice the length is filled, for input
byte number i, with 0x16 at position two i and the byte itself at
position two i plus one. -/
def escape : List Nat → List Nat
  | [] => []
  | c :: rest => 0x16 :: c :: escape rest

/-- BinMixin.escape on a text-string argument, the string modelled as
the list of its character code points.  For a character c the source
stores ord(c) into the bytearray; a bytearray item assignment raises
ValueError unless the value is below 256, aborting the call, modelled
by none. -/
def escapeText : List Nat → Option (List Nat)
  | [] => some []
  | c :: rest =>
    if c < 256 then (escapeText rest).map (fun r => 0x16 :: c :: r)
    else none

end BinMixin

/-- Liveness and exit information of the spawned target as pexpect
reports it: signalstatus and exitstatus. -/
structure TargetStatus where
  signalstatus : Option Int
  exitstatus : Option Int
deriving DecidableEq, Repr

/-- Observable side effects of the prompt mixin: diagnostic writes to
stdout, self-termination, the prompt call made by tryexpect on
timeout, and the blocking interact call. -/
inductive Effect where
  | signalReport (sig : Int)
  | exitReport (code : Int)
  | killSelf (sig : Int)
  | exitSelf (code : Int)
  | promptDiag (pattern : String)
  | continuingScript
  | escapeCharBanner
  | promptText (p : String)
  | interact
deriving DecidableEq, Repr

/-- Outcome of the underlying self.expect call wrapped by tryexpect:
a successful match (pexpect returns the index of the matched pattern),
a pexpect.TIMEOUT, or a pexpect.EOF. -/
inductive ExpectOutcome where
  | success (r : Nat)
  | timeout
  | eof
deriving DecidableEq, Repr

namespace PromptMixin

/-- PromptMixin._check_target from src/binexpect/mixins.py
(lines 169-196).  Reports a signal status, else an exit status, in
each case self-terminating the same way when exitwithprogram is set,
and returns False; with neither status set it writes nothing and
returns True (target considered alive/ambiguous). -/
def checkTarget (ewp : Bool) (st : TargetStatus) : List Effect × Bool :=
  match st.signalstatus with
  | some sig =>
    (Effect.signalReport sig :: (if ewp then [Effect.killSelf sig] else []),
     false)
  | none =>
    match st.exitstatus with
    | some code =>
      (Effect.exitReport code :: (if ewp then [Effect.exitSelf code] else []),
       false)
    | none => ([], true)

/-- PromptMixin.prompt from src/binexpect/mixins.py (lines 198-238).
Saves the echo flag and applies the requested one; when the object is
a BinMixin, calls setnlcr; prints the banner when stdout is a tty;
runs interact (blocking); afterwards, when the target is still alive,
pops the mode pushed by setnlcr with restoremode and puts the saved
echo flag back, and when the target is dead runs checkTarget and
restores nothing.  Inputs that the environment decides (is stdout a
tty, is the target alive once interact returns, its statuses) are
passed as parameters. -/
def prompt (promptArg : Option String) (echoArg : Option Bool)
    (printEsc : Bool) (ewp : Bool) (binmixin : Bool) (atty : Bool)
    (aliveAfter : Bool) (status : TargetStatus) (c : Conn) :
    Conn × List Effect :=
  let oldecho := c.echo
  let c1 : Conn := match echoArg with
    | some e => { c with echo := e }
    | none => c
  let c2 : Conn := if binmixin then BinMixin.setnlcr c1 else c1
  let banner : List Effect :=
    if atty then
      (if printEsc then [Effect.escapeCharBanner] else []) ++
      (match promptArg with
       | some p => [Effect.promptText p]
       | none => [])
    else []
  if aliveAfter then
    let c3 : Conn := if binmixin then
        -- the pop cannot fail here: setnlcr has just pushed an entry
        match BinMixin.restoremode TCSADRAIN c2 with
        | some c => c
        | none => c2
      else c2
    let c4 : Conn := match echoArg with
      | some e => if e != oldecho then { c3 with echo := oldecho } else c3
      | none => c3
    (c4, banner ++ [Effect.interact])
  else
    (c2, banner ++ [Effect.interact] ++ (checkTarget ewp status).1)

/-- PromptMixin.tryexpect from src/binexpect/mixins.py (lines 250-275).
Forwards to self.expect; on TIMEOUT calls self.prompt with a
diagnostic naming the unmet pattern then writes a continuation notice
and returns None; on EOF re-raises when the target is still alive,
otherwise runs checkTarget and re-raises exactly when it returned
True.  An escaping exception is modelled by Except.error. -/
def tryexpect (pattern : String) (outcome : ExpectOutcome) (alive : Bool)
    (status : TargetStatus) (ewp : Bool) :
    List Effect × Except Unit (Option Nat) :=
  match outcome with
  | ExpectOutcome.success r => ([], Except.ok (some r))
  | ExpectOutcome.timeout =>
    ([Effect.promptDiag pattern, Effect.continuingScript], Except.ok none)
  | ExpectOutcome.eof =>
    if alive then ([], Except.error ())
    else
      let r := checkTarget ewp status
      if r.2 then (r.1, Except.error ()) else (r.1, Except.ok none)

end PromptMixin

namespace binMixin

/-- binMixin.setmode from the legacy module src/binexpect.py
(lines 73-84).  The crlf monkeypatch is identical to the package
version, but here the tcsetattr call sits at method level after the
conditional, so the record is always written to the terminal. -/
def setmode (when : Nat) (mode : Termios) (c : Conn) : Conn :=
  let c1 : Conn := if mode.oflag &&& ONLCR ≠ 0 then { c with crlf := CRLF }
    else { c with crlf := LF }
  { c1 with term := mode, writes := c1.writes ++ [(when, mode)] }

/-- binMixin.changemode from src/binexpect.py (lines 86-105),
specialised to a with-body that returns normally.  It differs from the
package version in the unchanged case: the source line reads
self.oldmodes[-1] == None, a comparison with no effect, so the pushed
entry is left in place instead of being overwritten with None. -/
def changemode (when : Nat) (f : Termios → Termios) (c : Conn) : Conn :=
  let mode := c.term
  let pushed : Conn := { c with oldmodes := some mode :: c.oldmodes }
  let m := f mode
  if m = mode then pushed
  else setmode when m pushed

/-- binMixin.restoremode from src/binexpect.py (lines 107-116): same
shape as the package version but applying modes with the legacy
setmode. -/
def restoremode (when : Nat) (c : Conn) : Option Conn :=
  match c.oldmodes with
  | [] => none
  | mode :: rest =>
    let c1 : Conn := { c with oldmodes := rest }
    some (match mode with
      | none => c1
      | some m => setmode when m c1)

/-- binMixin.escape from src/binexpect.py (lines 128-149), on bytes:
the loop body is character for character the one of the package
version. -/
def escape : List Nat → List Nat
  | [] => []
  | c :: rest => 0x16 :: c :: escape rest

end binMixin

end Binexpect

namespace Binexpect

/-
Helper lemmas about the ONLCR bit.  ONLCR is 4, that is bit 2, and the
three operations the source performs on the output-flag word are the
truth test oflag & ONLCR, the set oflag | ONLCR and the clear
oflag & ~ONLCR (Nat.ldiff oflag ONLCR).
-/

theorem testBit_ONLCR (i : Nat) : Nat.testBit ONLCR i = decide (2 = i) := by
  have h : ONLCR = 2 ^ 2 := rfl
  rw [h, Nat.testBit_two_pow]

theorem land_ONLCR_eq_zero_iff (x : Nat) :
    x &&& ONLCR = 0 ↔ x.testBit 2 = false := by
  constructor
  · intro h
    have h2 := congrArg (fun y => Nat.testBit y 2) h
    simpa [Nat.testBit_land, testBit_ONLCR, Nat.zero_testBit] using h2
  · intro h
    apply Nat.eq_of_testBit_eq
    intro i
    rw [Nat.testBit_land, testBit_ONLCR, Nat.zero_testBit]
    by_cases hi : 2 = i
    · subst hi; simp [h]
    · simp [hi]

theorem lor_ONLCR_land_ne (x : Nat) : (x ||| ONLCR) &&& ONLCR ≠ 0 := by
  rw [Ne, land_ONLCR_eq_zero_iff, Nat.testBit_lor, testBit_ONLCR]
  simp

theorem lor_ONLCR_ne_of_clear {x : Nat} (h : x &&& ONLCR = 0) :
    x ||| ONLCR ≠ x := by
  intro he
  have h2 : (x ||| ONLCR).testBit 2 = true := by
    rw [Nat.testBit_lor, testBit_ONLCR]; simp
  rw [he, (land_ONLCR_eq_zero_iff x).mp h] at h2
  exact Bool.false_ne_true h2

theorem lor_ONLCR_eq_of_set {x : Nat} (h : x &&& ONLCR ≠ 0) :
    x ||| ONLCR = x := by
  have hb : x.testBit 2 = true := by
    by_contra hb
    exact h ((land_ONLCR_eq_zero_iff x).mpr (Bool.eq_false_iff.mpr hb))
  apply Nat.eq_of_testBit_eq
  intro i
  rw [Nat.testBit_lor, testBit_ONLCR]
  by_cases hi : 2 = i
  · subst hi; simp [hb]
  · simp [hi]

theorem clear_ONLCR_eq_of_clear {x : Nat} (h : x &&& ONLCR = 0) :
    x ^^^ (x &&& ONLCR) = x := by
  rw [h, Nat.xor_zero]

theorem clear_ONLCR_land (x : Nat) : (x ^^^ (x &&& ONLCR)) &&& ONLCR = 0 := by
  rw [land_ONLCR_eq_zero_iff, Nat.testBit_xor, Nat.testBit_land, testBit_ONLCR]
  simp

theorem clear_ONLCR_ne_of_set {x : Nat} (h : x &&& ONLCR ≠ 0) :
    x ^^^ (x &&& ONLCR) ≠ x := by
  intro he
  exact h (he ▸ clear_ONLCR_land x)

/-- Overwriting the oflag field with its own value is the identity. -/
theorem Termios.update_oflag_self (t : Termios) :
    ({ t with oflag := t.oflag } : Termios) = t := rfl

/-- C1: for every byte sequence s, including the empty sequence and
sequences containing the marker byte 0x16, escape yields a sequence of
length exactly twice the length of s made of consecutive pairs whose
first byte is 0x16 and whose second bytes, in order, reconstruct s;
being a total function of s alone, escape is deterministic, stateless
and never fails on byte input. -/
theorem C1_escape_pairs (s : List Nat) :
    (BinMixin.escape s).length = 2 * s.length ∧
    ∀ i, i < s.length →
      (BinMixin.escape s)[2 * i]? = some 0x16 ∧
      (BinMixin.escape s)[2 * i + 1]? = s[i]? := by
  induction s with
  | nil => exact ⟨rfl, fun i h => absurd h (Nat.not_lt_zero i)⟩
  | cons c rest ih =>
    constructor
    · simp only [BinMixin.escape, List.length_cons, ih.1]
      ring
    · intro i hi
      cases i with
      | zero => simp [BinMixin.escape]
      | succ j =>
        have h2 : 2 * (j + 1) = 2 * j + 1 + 1 := by ring
        have h3 : 2 * (j + 1) + 1 = 2 * j + 1 + 1 + 1 := by ring
        have hj := ih.2 j (Nat.lt_of_succ_lt_succ hi)
        constructor
        · rw [h2]
          simpa [BinMixin.escape] using hj.1
        · rw [h3]
          simpa [BinMixin.escape] using hj.2

/-- C1 witness: the three-byte payload [1, 0x16, 255] has a
six-byte escape whose middle pair is (0x16, 0x16). -/
theorem C1_escape_pairs_witness :
    (BinMixin.escape [1, 0x16, 255]).length = 2 * 3 ∧
    (BinMixin.escape [1, 0x16, 255])[2 * 1]? = some 0x16 ∧
    (BinMixin.escape [1, 0x16, 255])[2 * 1 + 1]? = [1, 0x16, 255][1]? :=
  ⟨(C1_escape_pairs [1, 0x16, 255]).1,
   (C1_escape_pairs [1, 0x16, 255]).2 1 (by decide)⟩

/-- C10: on a text string, modelled as its list of character code
points, escape agrees with the byte version whenever every code point
is below 256, and aborts with an error (the per-byte store into the
bytearray rejects values above 255) as soon as the input contains a
code point of 256 or more. -/
theorem C10_escapeText_spec (s : List Nat) :
    ((∀ c ∈ s, c < 256) → BinMixin.escapeText s = some (BinMixin.escape s)) ∧
    (∀ c ∈ s, 256 ≤ c → BinMixin.escapeText s = none) := by
  induction s with
  | nil =>
    exact ⟨fun _ => rfl, fun c hc _ => absurd hc (List.not_mem_nil c)⟩
  | cons c rest ih =>
    constructor
    · intro h
      have hc : c < 256 := h c (List.mem_cons_self c rest)
      have hr := ih.1 (fun x hx => h x (List.mem_cons_of_mem c hx))
      simp [BinMixin.escapeText, hc, hr, BinMixin.escape]
    · intro x hx h256
      rcases List.mem_cons.mp hx with he | hm
      · subst he
        simp [BinMixin.escapeText, Nat.not_lt.mpr h256]
      · have hr := ih.2 x hm h256
        simp [BinMixin.escapeText, hr]

/-- C10 witness: the code point list of the string "A" escapes to the
pair (0x16, 65), while a string containing the code point 955 (the
Greek letter lambda) makes escape fail. -/
theorem C10_escapeText_spec_witness :
    BinMixin.escapeText [65] = some (BinMixin.escape [65]) ∧
    BinMixin.escapeText [65, 955] = none :=
  ⟨(C10_escapeText_spec [65]).1 (by decide),
   (C10_escapeText_spec [65, 955]).2 955 (by simp) (by decide)⟩

end Binexpect

namespace Binexpect

/-- A concrete attribute record whose ONLCR bit is clear. -/
def t0 : Termios := ⟨0, 0, 0, 0, 0, 0, []⟩

/-- A concrete attribute record whose ONLCR bit is set (oflag 4). -/
def t4 : Termios := ⟨0, 4, 0, 0, 0, 0, []⟩

/-- A connection whose terminal has ONLCR clear and an empty stack. -/
def c0 : Conn := ⟨t0, CRLF, [], true, []⟩

/-- A connection whose terminal has ONLCR set and an empty stack. -/
def c4 : Conn := ⟨t4, CRLF, [], true, []⟩

/-- C8: whenever setmode applies a mode record, the crlf line
terminator used by line-terminated sends mirrors the ONLCR bit of the
record: the two-byte sequence CR LF when the bit is set, its single
trailing byte when the bit is clear; this holds for the package
version and for the legacy version alike. -/
theorem C8_setmode_crlf (when : Nat) (mode : Termios) (c : Conn) :
    (BinMixin.setmode when mode c).crlf =
      (if mode.oflag &&& ONLCR ≠ 0 then CRLF else LF) ∧
    (binMixin.setmode when mode c).crlf =
      (if mode.oflag &&& ONLCR ≠ 0 then CRLF else LF) ∧
    CRLF = [13, 10] ∧ LF = CRLF.drop 1 := by
  refine ⟨?_, ?_, rfl, rfl⟩ <;>
    by_cases h : mode.oflag &&& ONLCR ≠ 0 <;>
      simp [BinMixin.setmode, binMixin.setmode, h]

/-- C2 exhibit: on a terminal with ONLCR clear, setnlcr modifies the
yielded snapshot (or-ing in ONLCR changes the output flags), yet the
terminal record is not written: no tcsetattr call is logged and the
record is unchanged, while the stack correctly keeps the pushed
snapshot; in the opposite direction, setnonlcr on a terminal with
ONLCR set does log the tcsetattr call with the default TCSADRAIN
timing.  This contradicts the claim that both toggle directions apply
the modified record symmetrically. -/
theorem C2_setnlcr_write_skipped :
    t0.oflag ||| ONLCR ≠ t0.oflag ∧
    (BinMixin.setnlcr c0).term = c0.term ∧
    (BinMixin.setnlcr c0).writes = [] ∧
    (BinMixin.setnlcr c0).oldmodes = [some t0] ∧
    (BinMixin.setnonlcr c4).writes = [(TCSADRAIN, { t4 with oflag := 0 })] ∧
    (BinMixin.setnonlcr c4).term = { t4 with oflag := 0 } := by
  decide

/-- C3 exhibit: starting from a terminal whose record has ONLCR set,
one changemode scope (the one of setnonlcr) followed by the matching
restoremode leaves the terminal record different from the initial one:
the restore pops the saved record but setmode skips the tcsetattr call
because the popped record has ONLCR set.  The stack depth does return
to its initial value. -/
theorem C3_restore_not_roundtrip :
    (BinMixin.restoremode TCSADRAIN (BinMixin.setnonlcr c4)).map Conn.term =
      some { t4 with oflag := 0 } ∧
    ({ t4 with oflag := 0 } : Termios) ≠ t4 ∧
    (BinMixin.restoremode TCSADRAIN (BinMixin.setnonlcr c4)).map
      Conn.oldmodes = some c4.oldmodes := by
  decide

/-- C7 counterexample: on a terminal whose record already has ONLCR
set, setnlcr followed by setnonlcr does not leave the output flags
equal to the original value: the set is a no-op and the clear then
removes a bit that was present initially. -/
theorem C7_counterexample :
    (BinMixin.setnonlcr (BinMixin.setnlcr c4)).term.oflag ≠
      c4.term.oflag := by
  decide

/-- C7 amended: for every initial terminal attribute record whose
ONLCR bit is clear, setnlcr followed by setnonlcr leaves the whole
record, so in particular the output flags and every other attribute
group, bit for bit equal to its original value. -/
theorem C7_setnlcr_setnonlcr_roundtrip (c : Conn)
    (h : c.term.oflag &&& ONLCR = 0) :
    (BinMixin.setnonlcr (BinMixin.setnlcr c)).term = c.term := by
  have hne : ({ c.term with oflag := c.term.oflag ||| ONLCR } : Termios) ≠
      c.term := by
    intro he
    exact lor_ONLCR_ne_of_clear h (congrArg Termios.oflag he)
  have hset : ({ c.term with oflag := c.term.oflag ||| ONLCR } :
      Termios).oflag &&& ONLCR ≠ 0 := lor_ONLCR_land_ne c.term.oflag
  have h1 : BinMixin.setnlcr c =
      { c with crlf := CRLF, oldmodes := some c.term :: c.oldmodes } := by
    rw [BinMixin.setnlcr, BinMixin.changemode]
    simp only [if_neg hne, BinMixin.setmode, if_pos hset]
  have heq : ({ c.term with
      oflag := c.term.oflag ^^^ (c.term.oflag &&& ONLCR) } : Termios) =
      c.term := by
    rw [clear_ONLCR_eq_of_clear h]
  rw [h1, BinMixin.setnonlcr, BinMixin.changemode]
  simp only [if_pos heq]

/-- C7 witness: a record with output flags 8 (any value with bit 2
clear) makes the set-then-clear round trip the identity. -/
theorem C7_setnlcr_setnonlcr_roundtrip_witness :
    (⟨⟨1, 8, 2, 3, 4, 5, [6]⟩, CRLF, [], true, []⟩ : Conn).term.oflag &&&
      ONLCR = 0 ∧
    (BinMixin.setnonlcr (BinMixin.setnlcr
      (⟨⟨1, 8, 2, 3, 4, 5, [6]⟩, CRLF, [], true, []⟩ : Conn))).term =
      (⟨⟨1, 8, 2, 3, 4, 5, [6]⟩, CRLF, [], true, []⟩ : Conn).term :=
  ⟨by decide,
   C7_setnlcr_setnonlcr_roundtrip
     (⟨⟨1, 8, 2, 3, 4, 5, [6]⟩, CRLF, [], true, []⟩ : Conn) (by decide)⟩

end Binexpect

namespace Binexpect

/-- C4 counterexample: when the body of the with-scope raises without
having modified the snapshot, the scope-exit logic does not run: the
stack entry is not overwritten with None as the comparison would do,
the pushed snapshot simply stays on the stack. -/
theorem C4_counterexample :
    (BinMixin.changemodeExc TCSADRAIN (fun _ => Except.error ()) c0).1 ≠
      { c0 with oldmodes := none :: c0.oldmodes } ∧
    (BinMixin.changemodeExc TCSADRAIN
      (fun _ => Except.error ()) c0).1.oldmodes = [some t0] := by
  decide

/-- C4 amended: the scope-exit logic of changemode (compare the
snapshot against the pushed copy, then either mark the stack entry as
a no-op or apply the snapshot) runs only on the normal exit path of
the with-scope; when the body raises, the exception propagates from
the yield point of the generator, the pushed entry stays on the stack
unmarked, and neither the comparison nor any attribute write takes
place. -/
theorem C4_changemode_exit_paths (when : Nat)
    (f : Termios → Except Unit Termios) (c : Conn) :
    (∀ m, f c.term = Except.ok m →
      BinMixin.changemodeExc when f c =
        (BinMixin.changemode when (fun _ => m) c, false)) ∧
    (∀ e, f c.term = Except.error e →
      BinMixin.changemodeExc when f c =
        ({ c with oldmodes := some c.term :: c.oldmodes }, true) ∧
      (BinMixin.changemodeExc when f c).1.term = c.term ∧
      (BinMixin.changemodeExc when f c).1.writes = c.writes) := by
  constructor
  · intro m hm
    simp only [BinMixin.changemodeExc, BinMixin.changemode, hm]
    split <;> rfl
  · intro e he
    refine ⟨?_, ?_, ?_⟩ <;> simp [BinMixin.changemodeExc, he]

/-- C4 witness: a body that raises at once leaves the pushed entry on
the stack and touches neither the record nor the write log. -/
theorem C4_changemode_exit_paths_witness :
    BinMixin.changemodeExc TCSADRAIN (fun _ => Except.error ()) c4 =
      ({ c4 with oldmodes := some c4.term :: c4.oldmodes }, true) ∧
    (BinMixin.changemodeExc TCSADRAIN
      (fun _ => Except.error ()) c4).1.term = c4.term ∧
    (BinMixin.changemodeExc TCSADRAIN
      (fun _ => Except.error ()) c4).1.writes = c4.writes :=
  (C4_changemode_exit_paths TCSADRAIN
    (fun _ => Except.error ()) c4).2 () rfl

/-- C5: tryexpect returns the match result of expect on success; on
timeout no exception escapes, prompt is invoked with a diagnostic
embedding the unmet pattern and the call returns; on end of stream it
re-raises exactly when the target is still alive or when neither a
signal status nor an exit status is set, and otherwise reports the
signal or the exit code and returns without raising, self-terminating
effects included when exitwithprogram is set. -/
theorem C5_tryexpect_spec (pattern : String) (alive : Bool)
    (status : TargetStatus) (ewp : Bool) :
    (∀ r, PromptMixin.tryexpect pattern (ExpectOutcome.success r) alive
        status ewp = ([], Except.ok (some r))) ∧
    (PromptMixin.tryexpect pattern ExpectOutcome.timeout alive status ewp =
      ([Effect.promptDiag pattern, Effect.continuingScript],
       Except.ok none)) ∧
    (alive = true →
      PromptMixin.tryexpect pattern ExpectOutcome.eof alive status ewp =
        ([], Except.error ())) ∧
    (alive = false → status.signalstatus = none → status.exitstatus = none →
      PromptMixin.tryexpect pattern ExpectOutcome.eof alive status ewp =
        ([], Except.error ())) ∧
    (alive = false → ∀ sig, status.signalstatus = some sig →
      PromptMixin.tryexpect pattern ExpectOutcome.eof alive status ewp =
        (Effect.signalReport sig ::
          (if ewp then [Effect.killSelf sig] else []),
         Except.ok none)) ∧
    (alive = false → status.signalstatus = none →
      ∀ code, status.exitstatus = some code →
      PromptMixin.tryexpect pattern ExpectOutcome.eof alive status ewp =
        (Effect.exitReport code ::
          (if ewp then [Effect.exitSelf code] else []),
         Except.ok none)) := by
  obtain ⟨ss, es⟩ := status
  refine ⟨fun r => rfl, rfl, ?_, ?_, ?_, ?_⟩
  · intro ha
    subst ha
    rfl
  · intro ha hs he
    subst ha
    simp only at hs he
    subst hs
    subst he
    rfl
  · intro ha sig hs
    subst ha
    simp only at hs
    subst hs
    simp [PromptMixin.tryexpect, PromptMixin.checkTarget]
  · intro ha hs code he
    subst ha
    simp only at hs he
    subst hs
    subst he
    simp [PromptMixin.tryexpect, PromptMixin.checkTarget]

/-- C5 witness: with the target dead of exit status 3 and exit
mirroring on, tryexpect swallows the end of stream, reports the exit
code, requests self-termination with the same code, and returns. -/
theorem C5_tryexpect_spec_witness :
    PromptMixin.tryexpect "foo" ExpectOutcome.eof false ⟨none, some 3⟩
      true =
      (Effect.exitReport 3 :: (if true then [Effect.exitSelf 3] else []),
       Except.ok none) :=
  (C5_tryexpect_spec "foo" false ⟨none, some 3⟩ true).2.2.2.2.2 rfl rfl
    3 rfl

end Binexpect

namespace Binexpect

/-- When the ONLCR bit is clear, setnlcr modifies the snapshot, and
setmode then skips the attribute write because the new mode has ONLCR
set: only the crlf terminator changes and the snapshot is pushed. -/
theorem setnlcr_of_clear {c : Conn} (h : c.term.oflag &&& ONLCR = 0) :
    BinMixin.setnlcr c =
      { c with crlf := CRLF, oldmodes := some c.term :: c.oldmodes } := by
  have hne : ({ c.term with oflag := c.term.oflag ||| ONLCR } : Termios) ≠
      c.term := by
    intro he
    exact lor_ONLCR_ne_of_clear h (congrArg Termios.oflag he)
  have hset : ({ c.term with oflag := c.term.oflag ||| ONLCR } :
      Termios).oflag &&& ONLCR ≠ 0 := lor_ONLCR_land_ne c.term.oflag
  rw [BinMixin.setnlcr, BinMixin.changemode]
  simp only [if_neg hne, BinMixin.setmode, if_pos hset]

/-- When the ONLCR bit is already set, the snapshot of setnlcr comes
back unchanged and the scope-exit comparison pushes a None entry. -/
theorem setnlcr_of_set {c : Conn} (h : c.term.oflag &&& ONLCR ≠ 0) :
    BinMixin.setnlcr c = { c with oldmodes := none :: c.oldmodes } := by
  have heq : ({ c.term with oflag := c.term.oflag ||| ONLCR } : Termios) =
      c.term := by
    rw [lor_ONLCR_eq_of_set h]
  rw [BinMixin.setnlcr, BinMixin.changemode]
  simp only [if_pos heq]

/-- The setnlcr operation never changes the terminal record, never
changes the echo flag, and always grows the stack by one entry. -/
theorem setnlcr_frame (c : Conn) :
    (BinMixin.setnlcr c).term = c.term ∧
    (BinMixin.setnlcr c).echo = c.echo ∧
    (BinMixin.setnlcr c).oldmodes.length = c.oldmodes.length + 1 := by
  by_cases h : c.term.oflag &&& ONLCR = 0
  · rw [setnlcr_of_clear h]
    exact ⟨rfl, rfl, rfl⟩
  · rw [setnlcr_of_set h]
    exact ⟨rfl, rfl, rfl⟩

/-- Popping right after setnlcr restores the terminal record, the
stack and the echo flag to their previous values. -/
theorem setnlcr_restoremode (c : Conn) :
    ∃ c2, BinMixin.restoremode TCSADRAIN (BinMixin.setnlcr c) = some c2 ∧
      c2.term = c.term ∧ c2.oldmodes = c.oldmodes ∧ c2.echo = c.echo := by
  by_cases h : c.term.oflag &&& ONLCR = 0
  · rw [setnlcr_of_clear h]
    refine ⟨_, rfl, ?_⟩
    simp only [BinMixin.setmode, if_neg (not_not_intro h)]
    refine ⟨?_, ?_, ?_⟩ <;> trivial
  · rw [setnlcr_of_set h]
    exact ⟨_, rfl, rfl, rfl, rfl⟩

end Binexpect

namespace Binexpect

/-- C6: when prompt returns from the interactive passthrough with the
target still alive, the terminal attribute record, the mode stack and
the echo flag are all restored to their values from before the call
(the mode pushed by setnlcr is popped again and the saved echo setting
is put back); when the target is not alive, prompt runs the status
relay helper checkTarget, whose effects close the trace, and restores
neither modes nor echo: the requested echo setting stays applied and
the entry pushed by setnlcr stays on the stack. -/
theorem C6_prompt_restores (promptArg : Option String)
    (echoArg : Option Bool) (printEsc ewp binmixin atty : Bool)
    (status : TargetStatus) (c : Conn) :
    ((PromptMixin.prompt promptArg echoArg printEsc ewp binmixin atty true
        status c).1.term = c.term ∧
     (PromptMixin.prompt promptArg echoArg printEsc ewp binmixin atty true
        status c).1.oldmodes = c.oldmodes ∧
     (PromptMixin.prompt promptArg echoArg printEsc ewp binmixin atty true
        status c).1.echo = c.echo) ∧
    ((PromptMixin.prompt promptArg echoArg printEsc ewp binmixin atty false
        status c).1.echo = echoArg.getD c.echo ∧
     (PromptMixin.prompt promptArg echoArg printEsc ewp binmixin atty false
        status c).1.oldmodes.length =
       c.oldmodes.length + (if binmixin then 1 else 0) ∧
     (PromptMixin.prompt promptArg echoArg printEsc ewp binmixin atty false
        status c).1.term = c.term ∧
     ∃ pre, (PromptMixin.prompt promptArg echoArg printEsc ewp binmixin atty
        false status c).2 =
       pre ++ (PromptMixin.checkTarget ewp status).1) := by
  constructor
  · cases echoArg with
    | none =>
      cases binmixin with
      | false => simp [PromptMixin.prompt]
      | true =>
        obtain ⟨c2, hres, ht, ho, he⟩ := setnlcr_restoremode c
        simp [PromptMixin.prompt, hres, ht, ho, he]
    | some e =>
      cases binmixin with
      | false =>
        by_cases hee : e = c.echo <;>
          simp [PromptMixin.prompt, hee]
      | true =>
        by_cases hee : e = c.echo
        · subst hee
          obtain ⟨c2, hres, ht, ho, he⟩ :=
            setnlcr_restoremode { c with echo := c.echo }
          simp [PromptMixin.prompt, hres, ht, ho, he]
        · obtain ⟨c2, hres, ht, ho, he⟩ :=
            setnlcr_restoremode { c with echo := e }
          simp [PromptMixin.prompt, hres, ht, ho, he, hee]
  · cases binmixin with
    | false =>
      cases echoArg with
      | none => exact ⟨rfl, by simp [PromptMixin.prompt], rfl, _, rfl⟩
      | some e => exact ⟨rfl, by simp [PromptMixin.prompt], rfl, _, rfl⟩
    | true =>
      have hf := setnlcr_frame
      cases echoArg with
      | none =>
        refine ⟨?_, ?_, ?_, _, rfl⟩
        · simpa [PromptMixin.prompt] using (hf c).2.1
        · simpa [PromptMixin.prompt] using (hf c).2.2
        · simpa [PromptMixin.prompt] using (hf c).1
      | some e =>
        refine ⟨?_, ?_, ?_, _, rfl⟩
        · simpa [PromptMixin.prompt] using (hf { c with echo := e }).2.1
        · simpa [PromptMixin.prompt] using (hf { c with echo := e }).2.2
        · simpa [PromptMixin.prompt] using (hf { c with echo := e }).1

end Binexpect

namespace Binexpect

/-- C9 counterexample: the legacy and package modules are not
behaviorally equivalent.  On a mode record with ONLCR set the legacy
setmode performs the tcsetattr write while the package setmode does
not, and on a scope body that leaves the snapshot unchanged the legacy
changemode leaves the pushed entry on the stack (its None marking is a
comparison with no effect) while the package version overwrites it
with None. -/
theorem C9_counterexample :
    binMixin.setmode TCSADRAIN t4 c0 ≠ BinMixin.setmode TCSADRAIN t4 c0 ∧
    binMixin.changemode TCSADRAIN (fun m => m) c0 ≠
      BinMixin.changemode TCSADRAIN (fun m => m) c0 := by
  decide

/-- On a record with ONLCR clear, the two setmode versions take their
else branches and agree exactly. -/
theorem setmode_agree_of_clear (when : Nat) {mode : Termios} (c : Conn)
    (h : mode.oflag &&& ONLCR = 0) :
    binMixin.setmode when mode c = BinMixin.setmode when mode c := by
  simp [binMixin.setmode, BinMixin.setmode, h]

/-- C9 amended: the legacy binMixin and the package BinMixin agree on
escape for every payload; their setmode versions agree whenever the
applied record has the ONLCR bit clear; their changemode versions
agree whenever the scope body modifies the snapshot into a record with
ONLCR clear; their restoremode versions agree whenever the popped
entry, when present, has ONLCR clear.  They diverge when a mode with
ONLCR set is applied (the package skips the attribute write) and when
a scope leaves the snapshot unchanged (the legacy fails to mark the
entry as a no-op). -/
theorem C9_partial_equivalence :
    (∀ s, binMixin.escape s = BinMixin.escape s) ∧
    (∀ when mode c, mode.oflag &&& ONLCR = 0 →
      binMixin.setmode when mode c = BinMixin.setmode when mode c) ∧
    (∀ when f c, f c.term ≠ c.term → (f c.term).oflag &&& ONLCR = 0 →
      binMixin.changemode when f c = BinMixin.changemode when f c) ∧
    (∀ when c,
      (∀ m, c.oldmodes.head? = some (some m) → m.oflag &&& ONLCR = 0) →
      binMixin.restoremode when c = BinMixin.restoremode when c) := by
  refine ⟨?_, ?_, ?_, ?_⟩
  · intro s
    induction s with
    | nil => rfl
    | cons a rest ih => simp [binMixin.escape, BinMixin.escape, ih]
  · intro when mode c h
    exact setmode_agree_of_clear when c h
  · intro when f c hne h
    simp only [binMixin.changemode, BinMixin.changemode, if_neg hne]
    exact setmode_agree_of_clear when _ h
  · intro when c h
    cases hc : c.oldmodes with
    | nil => simp [binMixin.restoremode, BinMixin.restoremode, hc]
    | cons entry rest =>
      cases entry with
      | none => simp [binMixin.restoremode, BinMixin.restoremode, hc]
      | some m =>
        have hm := h m (by rw [hc]; rfl)
        simp only [binMixin.restoremode, BinMixin.restoremode, hc]
        exact congrArg some (setmode_agree_of_clear when _ hm)

/-- C9 witness: the two modules agree when applying a record with
ONLCR clear and when restoring a stack whose top entry has ONLCR
clear. -/
theorem C9_partial_equivalence_witness :
    binMixin.setmode TCSADRAIN t0 c4 = BinMixin.setmode TCSADRAIN t0 c4 ∧
    binMixin.restoremode TCSADRAIN ⟨t4, CRLF, [some t0], true, []⟩ =
      BinMixin.restoremode TCSADRAIN ⟨t4, CRLF, [some t0], true, []⟩ :=
  ⟨C9_partial_equivalence.2.1 TCSADRAIN t0 c4 (by decide),
   C9_partial_equivalence.2.2.2 TCSADRAIN ⟨t4, CRLF, [some t0], true, []⟩
     (by intro m hm; simp at hm; subst hm; decide)⟩

end Binexpect
